import Mathlib

/- Shallow embedding of the quik-downloader sources (src/quik_downloader):
   core/downloader.py (VideoDownloader), core/file_handler.py (FileHandler) and
   the download session loop of ui/menu.py (MenuInterface.download_videos).
   Python strings are Lean Strings; the helpers below model the Python string
   methods used by the source (str.strip, str.lower, str.startswith) over
   List Char with structural recursion so that they evaluate in the kernel.
   The subprocess and filesystem layer is an explicit oracle (Env). -/

/-- Models Python str.isspace for the characters str.strip removes
(space, tab, newline, carriage return, vertical tab, form feed). -/
def pyIsSpace (c : Char) : Bool :=
  c = ' ' || c = '\t' || c = '\n' || c = '\r' || c = '\x0b' || c = '\x0c'

/-- Models Python str.strip() with no argument: drop whitespace from both ends. -/
def pyStrip (s : String) : String :=
  String.mk (((s.data.dropWhile pyIsSpace).reverse.dropWhile pyIsSpace).reverse)

/-- Models Python str.lower() for the ASCII range (the URLs and literals the
source compares are ASCII). -/
def pyLowerChar (c : Char) : Char :=
  if 'A' ≤ c ∧ c ≤ 'Z' then Char.ofNat (c.toNat + 32) else c

/-- Models Python str.lower(). -/
def pyLower (s : String) : String :=
  String.mk (s.data.map pyLowerChar)

/-- First list is a leading segment of the second. -/
def startsWithChars : List Char → List Char → Bool
  | [], _ => true
  | _ :: _, [] => false
  | p :: ps, c :: cs => p == c && startsWithChars ps cs

/-- Models Python str.startswith(pat). -/
def pyStartsWith (s pat : String) : Bool :=
  startsWithChars pat.data s.data

/-- Models Python "a_b".format-style decimal rendering of a Nat (str(int)).
Structural recursion on a fuel argument so it reduces in the kernel. -/
def natToCharsAux : Nat → Nat → List Char
  | 0, _ => []
  | fuel + 1, n =>
    if n < 10 then [Char.ofNat (48 + n)]
    else natToCharsAux fuel (n / 10) ++ [Char.ofNat (48 + n % 10)]

/-- Decimal rendering of a Nat, used for the int(time.time()) timestamp. -/
def natToString (n : Nat) : String :=
  String.mk (natToCharsAux (n + 1) n)

/-- Chars after the first "://" of the url, if any; models the scheme split of
urllib.parse.urlparse for scheme://authority/... URLs. -/
def afterSchemeSep : List Char → Option (List Char)
  | ':' :: '/' :: '/' :: rest => some rest
  | _ :: rest => afterSchemeSep rest
  | [] => none

/-- Authority chars: everything up to the first of '/', '?' or '#'; models
CPython _splitnetloc. -/
def takeNetloc : List Char → List Char
  | [] => []
  | c :: cs => if c = '/' ∨ c = '?' ∨ c = '#' then [] else c :: takeNetloc cs

/-- The netloc (authority) component of a URL as raw chars, before CPython's
bracket validation; empty when the URL has no "://". -/
def rawNetlocChars (url : String) : List Char :=
  match afterSchemeSep url.data with
  | some r => takeNetloc r
  | none => []

/-- CPython urllib.parse.urlsplit raises ValueError("Invalid IPv6 URL") when
the authority contains an unmatched square bracket; this predicate is true
exactly when urlparse(url) raises for such URLs. -/
def urlparse_raises (url : String) : Bool :=
  let netloc := rawNetlocChars url
  (netloc.contains '[' && !netloc.contains ']') ||
  (netloc.contains ']' && !netloc.contains '[')

/-- Models netloc.replace('www.', ''): removes every occurrence of "www.",
continuing the scan after each removed occurrence, as Python str.replace does. -/
def dropWww : List Char → List Char
  | 'w' :: 'w' :: 'w' :: '.' :: rest => dropWww rest
  | c :: rest => c :: dropWww rest
  | [] => []

/-- Models os.path.join(dir, name) for the relative file names the source
produces (posix separator). -/
def joinPath (dir name : String) : String :=
  if dir = "" then name
  else if dir.data.getLast? = some '/' then dir ++ name
  else dir ++ "/" ++ name

/- #### VideoDownloader (core/downloader.py) -/

/-- The constructor state of VideoDownloader: video_quality, output_format and
ffmpeg_path (already defaulted to "ffmpeg" when the caller passed None). -/
structure Downloader where
  video_quality : String
  output_format : String
  ffmpeg_path : String
deriving DecidableEq

/-- What one subprocess.Popen invocation of an argv does: the process exits
with a return code after running for some wall-clock seconds, or Popen raises
FileNotFoundError, or some other exception is raised during execution. -/
inductive ExecOutcome where
  | exited (code : Int) (runtimeSec : Nat)
  | fileNotFound
  | raised
deriving DecidableEq

/-- What os.path.exists / os.path.getsize observe for the output path right
after an invocation: the path is absent, or present with a byte size, or the
check itself raises an OSError. -/
inductive SizeView where
  | absent
  | size (n : Nat)
  | raised
deriving DecidableEq

/-- The Python exception classes distinguished by the handlers in
download_video. -/
inductive PyExc where
  | timeoutExpired
  | osError
  | other
deriving DecidableEq

/-- Oracle for the external world: run gives the outcome of executing an argv;
view gives the observed state of a path immediately after that argv ran. -/
structure Env where
  run : List String → ExecOutcome
  view : List String → String → SizeView

/-- The verification check of lines 54 and 183:
os.path.exists(p) and os.path.getsize(p) > 0. -/
def size_ok : SizeView → Bool
  | SizeView.size n => decide (0 < n)
  | _ => false

/-- VideoDownloader._execute_ffmpeg_command, lines 79-114. The stdout framing
is display-only; the returned value is (process.wait() == 0). process.wait()
is called with no timeout argument, so the wall-clock runtime of the process
never influences the result, and subprocess.TimeoutExpired is never raised on
this path. Popen raising FileNotFoundError or any other exception is caught
and yields False. -/
def execute_ffmpeg_command : ExecOutcome → Bool
  | ExecOutcome.exited code _ => code == 0
  | ExecOutcome.fileNotFound => false
  | ExecOutcome.raised => false

/-- VideoDownloader._get_quality_params, lines 136-145: quality_map.get with
quality_map['best'] as the default for unknown keys. -/
def get_quality_params (d : Downloader) : List String :=
  if d.video_quality = "best" then ["-c", "copy"]
  else if d.video_quality = "high" then
    ["-vf", "scale=-2:720", "-c:v", "libx264", "-c:a", "aac"]
  else if d.video_quality = "medium" then
    ["-vf", "scale=-2:480", "-c:v", "libx264", "-c:a", "aac"]
  else if d.video_quality = "low" then
    ["-vf", "scale=-2:360", "-c:v", "libx264", "-c:a", "aac"]
  else ["-c", "copy"]

/-- VideoDownloader._build_ffmpeg_command, lines 147-167. -/
def build_ffmpeg_command (d : Downloader) (url output_path : String) : List String :=
  let cmd := [d.ffmpeg_path, "-i", url, "-bsf:a", "aac_adtstoasc", "-y"]
  let cmd2 := cmd ++ ["-loglevel", "error", "-stats"]
  let cmd3 := cmd2 ++ get_quality_params d
  cmd3 ++ [output_path]

/-- The fallback argv literal of _try_fallback_download, lines 173-180. -/
def fallback_command (d : Downloader) (url output_path : String) : List String :=
  [d.ffmpeg_path, "-i", url, "-c", "copy", "-bsf:a", "aac_adtstoasc", "-y", output_path]

/-- VideoDownloader._generate_output_filename, lines 116-134:
urlparse(url).netloc.replace('www.', '') plus timestamp and format under
output_dir; the except branch (urlparse raising, e.g. ValueError on an
unmatched bracket in the authority) falls back to video_{timestamp}.{format}.
The timestamp int(time.time()) is the ts parameter. -/
def generate_output_filename (d : Downloader) (url output_dir : String) (ts : Nat) : String :=
  if urlparse_raises url then
    joinPath output_dir ("video_" ++ natToString ts ++ "." ++ d.output_format)
  else
    joinPath output_dir
      (String.mk (dropWww (rawNetlocChars url)) ++ "_" ++ natToString ts ++ "." ++ d.output_format)

/-- Result of one download job: the returned boolean and the argv of every
external-tool invocation performed, in order. -/
structure JobResult where
  ok : Bool
  execs : List (List String)
deriving DecidableEq

/-- VideoDownloader._try_fallback_download, lines 169-197: run the fallback
argv, then verify the same output path; its own try/except turns any
exception during verification into False. -/
def try_fallback_download (d : Downloader) (env : Env) (url output_path : String) : JobResult :=
  let fcmd := fallback_command d url output_path
  if execute_ffmpeg_command (env.run fcmd) then
    match env.view fcmd output_path with
    | SizeView.raised => ⟨false, [fcmd]⟩
    | v => ⟨size_ok v, [fcmd]⟩
  else
    ⟨false, [fcmd]⟩

/-- Result of the try-block body of download_video: either a returned boolean
or a propagating exception, together with the invocations performed. -/
structure BodyResult where
  result : Except PyExc Bool
  execs : List (List String)

/-- The try-block of VideoDownloader.download_video, lines 41-69: generate the
output path, build the primary argv, execute it; on success verify the output
file (an OSError during verification propagates to the outer handlers); on a
failed execution fall back to copy mode only when video_quality is not
'best'. -/
def download_video_body (d : Downloader) (env : Env) (ts : Nat) (url output_dir : String) :
    BodyResult :=
  let output_path := generate_output_filename d url output_dir ts
  let cmd := build_ffmpeg_command d url output_path
  if execute_ffmpeg_command (env.run cmd) then
    match env.view cmd output_path with
    | SizeView.raised => ⟨Except.error PyExc.osError, [cmd]⟩
    | v => ⟨Except.ok (size_ok v), [cmd]⟩
  else
    if d.video_quality = "best" then
      ⟨Except.ok false, [cmd]⟩
    else
      let fr := try_fallback_download d env url output_path
      ⟨Except.ok fr.ok, cmd :: fr.execs⟩

/-- The URL guard of download_video, line 37:
url.strip() is truthy and url.lower().startswith(('http://', 'https://')). -/
def valid_url (url : String) : Bool :=
  !(pyStrip url == "") &&
  (pyStartsWith (pyLower url) "http://" || pyStartsWith (pyLower url) "https://")

/-- VideoDownloader.download_video, lines 35-77: reject invalid URLs before
any invocation; otherwise run the body, with the except handlers (lines 71-77)
turning any propagating exception into the return value False. -/
def download_video (d : Downloader) (env : Env) (ts : Nat) (url output_dir : String) :
    JobResult :=
  if valid_url url then
    match download_video_body d env ts url output_dir with
    | ⟨Except.ok b, es⟩ => ⟨b, es⟩
    | ⟨Except.error _, es⟩ => ⟨false, es⟩
  else
    ⟨false, []⟩

/- #### FileHandler (core/file_handler.py) -/

/-- The four settings fields of FileHandler.default_settings, lines 18-23. -/
structure Settings where
  download_directory : String
  video_quality : String
  output_format : String
  ffmpeg_path : String
deriving DecidableEq

/-- FileHandler.default_settings. -/
def default_settings : Settings :=
  ⟨"./downloads", "best", "mp4", "ffmpeg"⟩

/-- The state of settings.ini as configparser sees it: the file is absent, or
present without a SETTINGS section, or present with a SETTINGS section (g is
the key lookup inside that section), or reading it raises. -/
inductive IniState where
  | absent
  | noSection
  | withSection (g : String → Option String)
  | raised

/-- FileHandler.read_settings, lines 26-57: with a SETTINGS section each of
the four keys is read with config.get(..., fallback=default); an absent file
or missing section goes through _create_default_settings; any exception yields
a copy of the defaults. -/
def read_settings : IniState → Settings
  | IniState.absent => default_settings
  | IniState.noSection => default_settings
  | IniState.raised => default_settings
  | IniState.withSection g =>
    ⟨(g "download_directory").getD "./downloads",
     (g "video_quality").getD "best",
     (g "output_format").getD "mp4",
     (g "ffmpeg_path").getD "ffmpeg"⟩

/-- The settings record that read_settings writes back to settings.ini (via
_create_default_settings → write_settings), if any: the defaults when the file
is absent or has no SETTINGS section, nothing otherwise. -/
def settings_written : IniState → Option Settings
  | IniState.absent => some default_settings
  | IniState.noSection => some default_settings
  | _ => none

/-- The state of URLs.txt: absent, or present with its lines, or unreadable. -/
inductive UrlsFileState where
  | absent
  | lines (ls : List String)
  | raised

/-- The per-line filter of FileHandler.read_urls, line 110:
line.strip() truthy and not line.strip().startswith('#'), yielding the
stripped line. -/
def keep_url_line (l : String) : Option String :=
  let s := pyStrip l
  if s == "" then none
  else if pyStartsWith s "#" then none
  else some s

/-- FileHandler.read_urls, lines 96-118: an absent file is created with a
three-line comment template and [] is returned; otherwise the stripped
non-blank non-comment lines in file order; any exception yields []. -/
def read_urls : UrlsFileState → List String
  | UrlsFileState.absent => []
  | UrlsFileState.lines ls => ls.filterMap keep_url_line
  | UrlsFileState.raised => []

/-- The lines read_urls writes when creating URLs.txt, lines 102-105. -/
def urls_file_written : UrlsFileState → Option (List String)
  | UrlsFileState.absent =>
    some ["# Welcome to QUIK Downloader!",
          "# Add your M3U8 video links here, one per line.",
          "# Lines starting with '#' are ignored."]
  | _ => none

/- #### Download session loop (ui/menu.py, MenuInterface.download_videos) -/

/-- The outcome of one download_video call as the session loop sees it: it
returned True, returned False, or raised (caught by lines 152-155 and counted
as failed). -/
inductive JobOutcome where
  | succeeded
  | failed
  | raised
deriving DecidableEq

/-- Accumulated session state: the two counters and the URLs attempted so far
in order. -/
structure SessionSummary where
  successful : Nat
  failed : Nat
  attempted : List String
deriving DecidableEq

/-- One iteration of the loop at menu.py lines 144-155: attempt the next URL
(its 1-based index is the number attempted so far plus one) and bump the
matching counter. -/
def session_step (job : Nat → String → JobOutcome) (acc : SessionSummary) (url : String) :
    SessionSummary :=
  match job (acc.attempted.length + 1) url with
  | JobOutcome.succeeded => ⟨acc.successful + 1, acc.failed, acc.attempted ++ [url]⟩
  | JobOutcome.failed => ⟨acc.successful, acc.failed + 1, acc.attempted ++ [url]⟩
  | JobOutcome.raised => ⟨acc.successful, acc.failed + 1, acc.attempted ++ [url]⟩

/-- The whole session loop of MenuInterface.download_videos, lines 141-169:
fold over the loaded URLs starting from zero counters. -/
def download_videos_loop (job : Nat → String → JobOutcome) (urls : List String) :
    SessionSummary :=
  urls.foldl (session_step job) ⟨0, 0, []⟩

/- #### Helper lemmas -/

/-- The fallback path always performs exactly one invocation, with the
stream-copy argv. -/
lemma try_fallback_execs (d : Downloader) (env : Env) (url p : String) :
    (try_fallback_download d env url p).execs = [fallback_command d url p] := by
  simp only [try_fallback_download]
  cases hx : execute_ffmpeg_command (env.run (fallback_command d url p))
  · simp [hx]
  · simp only [hx, if_true]
    cases env.view (fallback_command d url p) p <;> rfl

/-- The fallback succeeds exactly when its invocation exits 0 and the output
path verifies non-empty afterwards. -/
lemma try_fallback_ok (d : Downloader) (env : Env) (url p : String) :
    (try_fallback_download d env url p).ok =
      (execute_ffmpeg_command (env.run (fallback_command d url p)) &&
       size_ok (env.view (fallback_command d url p) p)) := by
  simp only [try_fallback_download]
  cases hx : execute_ffmpeg_command (env.run (fallback_command d url p))
  · simp [hx]
  · cases hw : env.view (fallback_command d url p) p <;> simp [hx, hw, size_ok]

/-- For a valid URL, download_video reduces to the body with the except
handlers mapping a propagating exception to False. -/
lemma download_video_eq_body (d : Downloader) (env : Env) (ts : Nat) (url dir : String)
    (hv : valid_url url = true) :
    download_video d env ts url dir =
      match download_video_body d env ts url dir with
      | ⟨Except.ok b, es⟩ => ⟨b, es⟩
      | ⟨Except.error _, es⟩ => ⟨false, es⟩ := by
  simp [download_video, hv]

/-- Closed form of download_video for a valid URL: primary invocation, then
verification, with the copy-mode fallback only on a failed primary execution
and only when the quality is not 'best'. An OSError during verification and a
failed verification both end in a False result, so they collapse into
size_ok. -/
lemma download_video_cases (d : Downloader) (env : Env) (ts : Nat) (url dir : String)
    (hv : valid_url url = true) :
    download_video d env ts url dir =
      if execute_ffmpeg_command
          (env.run (build_ffmpeg_command d url (generate_output_filename d url dir ts))) then
        ⟨size_ok (env.view (build_ffmpeg_command d url (generate_output_filename d url dir ts))
            (generate_output_filename d url dir ts)),
         [build_ffmpeg_command d url (generate_output_filename d url dir ts)]⟩
      else if d.video_quality = "best" then
        ⟨false, [build_ffmpeg_command d url (generate_output_filename d url dir ts)]⟩
      else
        ⟨(try_fallback_download d env url (generate_output_filename d url dir ts)).ok,
         [build_ffmpeg_command d url (generate_output_filename d url dir ts),
          fallback_command d url (generate_output_filename d url dir ts)]⟩ := by
  rw [download_video_eq_body d env ts url dir hv]
  simp only [download_video_body]
  cases hx : execute_ffmpeg_command
      (env.run (build_ffmpeg_command d url (generate_output_filename d url dir ts)))
  · simp only [hx, Bool.false_eq_true, if_false]
    by_cases hq : d.video_quality = "best"
    · simp [hq]
    · simp [hq, try_fallback_execs]
  · simp only [hx, if_true]
    cases hw : env.view (build_ffmpeg_command d url (generate_output_filename d url dir ts))
        (generate_output_filename d url dir ts) <;> simp [hw, size_ok]

/- #### Concrete downloaders and environments used by witnesses and
counterexamples -/

/-- A downloader configured with quality 'high'. -/
def dHigh : Downloader := ⟨"high", "mp4", "ffmpeg"⟩

/-- A downloader configured with quality 'best'. -/
def dBest : Downloader := ⟨"best", "mp4", "ffmpeg"⟩

/-- Every invocation exits 0 immediately and leaves a 5-byte output file. -/
def envAllGood : Env :=
  ⟨fun _ => ExecOutcome.exited 0 0, fun _ _ => SizeView.size 5⟩

/-- Every invocation exits 0 but the output file is created empty. -/
def envExitZeroEmpty : Env :=
  ⟨fun _ => ExecOutcome.exited 0 0, fun _ _ => SizeView.size 0⟩

/-- Every invocation exits 0 after 7200 seconds of wall-clock time (two
hours) and leaves a 1 MiB output file. -/
def envTwoHours : Env :=
  ⟨fun _ => ExecOutcome.exited 0 7200, fun _ _ => SizeView.size 1048576⟩

/-- The primary invocation (recognisable by its "-stats" flag) exits 1; the
fallback invocation exits 0; output files verify as 7 bytes. -/
def envPrimaryFails : Env :=
  ⟨fun c => if c.contains "-stats" then ExecOutcome.exited 1 0 else ExecOutcome.exited 0 0,
   fun _ _ => SizeView.size 7⟩

/-- The primary invocation (recognisable by its "-stats" flag) raises inside
subprocess handling; the fallback invocation exits 0; output files verify as
5 bytes. -/
def envPrimaryRaises : Env :=
  ⟨fun c => if c.contains "-stats" then ExecOutcome.raised else ExecOutcome.exited 0 0,
   fun _ _ => SizeView.size 5⟩

/-- Every invocation exits 0, but observing the output file raises OSError. -/
def envVerifyRaises : Env :=
  ⟨fun _ => ExecOutcome.exited 0 0, fun _ _ => SizeView.raised⟩

/- #### Claim theorems -/

/-- C4: for every settings-file state (absent, section missing, any subset of
the four keys missing, unreadable) read_settings returns a fully populated
record with every missing field at its documented default and never raises;
an absent file is created holding exactly the defaults, which are returned. -/
theorem read_settings_defaults (g : String → Option String) :
    read_settings IniState.absent = default_settings ∧
    settings_written IniState.absent = some default_settings ∧
    read_settings IniState.noSection = default_settings ∧
    read_settings IniState.raised = default_settings ∧
    (g "download_directory" = none →
      (read_settings (IniState.withSection g)).download_directory = "./downloads") ∧
    (g "video_quality" = none →
      (read_settings (IniState.withSection g)).video_quality = "best") ∧
    (g "output_format" = none →
      (read_settings (IniState.withSection g)).output_format = "mp4") ∧
    (g "ffmpeg_path" = none →
      (read_settings (IniState.withSection g)).ffmpeg_path = "ffmpeg") ∧
    (∀ v, g "download_directory" = some v →
      (read_settings (IniState.withSection g)).download_directory = v) ∧
    (∀ v, g "video_quality" = some v →
      (read_settings (IniState.withSection g)).video_quality = v) ∧
    (∀ v, g "output_format" = some v →
      (read_settings (IniState.withSection g)).output_format = v) ∧
    (∀ v, g "ffmpeg_path" = some v →
      (read_settings (IniState.withSection g)).ffmpeg_path = v) := by
  refine ⟨rfl, rfl, rfl, rfl, ?_, ?_, ?_, ?_, ?_, ?_, ?_, ?_⟩ <;>
    first
      | (intro h; simp [read_settings, h])
      | (intro v h; simp [read_settings, h])

/-- C4 witness: a SETTINGS section with every key missing loads as the four
documented defaults. -/
theorem read_settings_defaults_witness :
    (read_settings (IniState.withSection (fun _ => none))).download_directory = "./downloads" ∧
    (read_settings (IniState.withSection (fun _ => none))).video_quality = "best" ∧
    (read_settings (IniState.withSection (fun _ => none))).output_format = "mp4" ∧
    (read_settings (IniState.withSection (fun _ => none))).ffmpeg_path = "ffmpeg" :=
  ⟨(read_settings_defaults (fun _ => none)).2.2.2.2.1 rfl,
   (read_settings_defaults (fun _ => none)).2.2.2.2.2.1 rfl,
   (read_settings_defaults (fun _ => none)).2.2.2.2.2.2.1 rfl,
   (read_settings_defaults (fun _ => none)).2.2.2.2.2.2.2.1 rfl⟩

/-- C5: read_urls returns exactly the stripped non-blank non-comment lines of
the file in their original relative order; an absent file is created with the
three comment lines explaining the format and [] is returned. -/
theorem read_urls_filter_order :
    read_urls UrlsFileState.absent = [] ∧
    urls_file_written UrlsFileState.absent =
      some ["# Welcome to QUIK Downloader!",
            "# Add your M3U8 video links here, one per line.",
            "# Lines starting with '#' are ignored."] ∧
    ∀ ls : List String,
      read_urls (UrlsFileState.lines ls) =
        (ls.map pyStrip).filter (fun s => !(s == "") && !(pyStartsWith s "#")) := by
  refine ⟨rfl, rfl, ?_⟩
  intro ls
  induction ls with
  | nil => rfl
  | cons l ls ih =>
    simp only [read_urls] at ih ⊢
    simp only [List.filterMap_cons, List.map_cons, List.filter_cons]
    by_cases h1 : (pyStrip l == "") = true
    · simp [keep_url_line, h1, ih]
    · by_cases h2 : (pyStartsWith (pyStrip l) "#") = true
      · simp [keep_url_line, h1, h2, ih]
      · simp [keep_url_line, h1, h2, ih]

/-- C6: a URL that is empty after stripping, or whose lower-cased form starts
with neither "http://" nor "https://", makes download_video record a failure
with no external-tool invocation at all. -/
theorem invalid_url_no_invocation (d : Downloader) (env : Env) (ts : Nat) (url dir : String)
    (h : pyStrip url = "" ∨
         (pyStartsWith (pyLower url) "http://" = false ∧
          pyStartsWith (pyLower url) "https://" = false)) :
    download_video d env ts url dir = ⟨false, []⟩ := by
  have hv : valid_url url = false := by
    rcases h with h1 | ⟨h2, h3⟩
    · simp [valid_url, h1]
    · simp [valid_url, h2, h3]
  simp [download_video, hv]

/-- C6 witness: an ftp:// URL is rejected without any invocation. -/
theorem invalid_url_no_invocation_witness :
    download_video dBest envAllGood 0 "ftp://example.com/v.m3u8" "./downloads" = ⟨false, []⟩ :=
  invalid_url_no_invocation dBest envAllGood 0 "ftp://example.com/v.m3u8" "./downloads"
    (Or.inr ⟨rfl, rfl⟩)

/-- C7: any quality value outside best/high/medium/low selects the 'best'
template, the stream-copy arguments. -/
theorem unknown_quality_falls_back_to_best (d : Downloader)
    (h : d.video_quality ∉ (["best", "high", "medium", "low"] : List String)) :
    get_quality_params d = ["-c", "copy"] := by
  simp only [List.mem_cons, List.not_mem_nil, or_false, not_or] at h
  obtain ⟨h1, h2, h3, h4⟩ := h
  simp [get_quality_params, h1, h2, h3, h4]

/-- C7 witness: the unknown quality "ultra" selects the stream-copy
arguments. -/
theorem unknown_quality_falls_back_to_best_witness :
    get_quality_params ⟨"ultra", "mp4", "ffmpeg"⟩ = ["-c", "copy"] :=
  unknown_quality_falls_back_to_best ⟨"ultra", "mp4", "ffmpeg"⟩ (by decide)

/-- C8: the primary argv is exactly tool, -i, url, -bsf:a, aac_adtstoasc, -y,
-loglevel, error, -stats, the quality arguments, the output path; the quality
arguments per quality are exactly the four listed templates; the fallback argv
is exactly tool, -i, url, -c, copy, -bsf:a, aac_adtstoasc, -y, output path. -/
theorem ffmpeg_command_exact (d : Downloader) (url p : String) :
    build_ffmpeg_command d url p =
      [d.ffmpeg_path, "-i", url, "-bsf:a", "aac_adtstoasc", "-y",
       "-loglevel", "error", "-stats"] ++ get_quality_params d ++ [p] ∧
    (d.video_quality = "best" → get_quality_params d = ["-c", "copy"]) ∧
    (d.video_quality = "high" →
      get_quality_params d = ["-vf", "scale=-2:720", "-c:v", "libx264", "-c:a", "aac"]) ∧
    (d.video_quality = "medium" →
      get_quality_params d = ["-vf", "scale=-2:480", "-c:v", "libx264", "-c:a", "aac"]) ∧
    (d.video_quality = "low" →
      get_quality_params d = ["-vf", "scale=-2:360", "-c:v", "libx264", "-c:a", "aac"]) ∧
    fallback_command d url p =
      [d.ffmpeg_path, "-i", url, "-c", "copy", "-bsf:a", "aac_adtstoasc", "-y", p] := by
  refine ⟨?_, ?_, ?_, ?_, ?_, rfl⟩
  · simp [build_ffmpeg_command]
  all_goals intro h; simp [get_quality_params, h]

/-- C8 witness: the 'best' command at concrete inputs. -/
theorem ffmpeg_command_exact_witness :
    build_ffmpeg_command dBest "https://example.com/v.m3u8" "out.mp4" =
      ["ffmpeg", "-i", "https://example.com/v.m3u8", "-bsf:a", "aac_adtstoasc", "-y",
       "-loglevel", "error", "-stats"] ++ get_quality_params dBest ++ ["out.mp4"] ∧
    get_quality_params dBest = ["-c", "copy"] :=
  ⟨(ffmpeg_command_exact dBest "https://example.com/v.m3u8" "out.mp4").1,
   (ffmpeg_command_exact dBest "https://example.com/v.m3u8" "out.mp4").2.1 rfl⟩

/-- Fold invariant of the session loop: starting from any accumulator, the
loop appends every URL to the attempted list in order and adds one to exactly
one of the two counters per URL. -/
lemma session_foldl (job : Nat → String → JobOutcome) (urls : List String)
    (acc : SessionSummary) :
    (urls.foldl (session_step job) acc).attempted = acc.attempted ++ urls ∧
    (urls.foldl (session_step job) acc).successful + (urls.foldl (session_step job) acc).failed =
      acc.successful + acc.failed + urls.length := by
  induction urls generalizing acc with
  | nil => simp
  | cons u us ih =>
    simp only [List.foldl_cons]
    obtain ⟨ha, hc⟩ := ih (session_step job acc u)
    constructor
    · rw [ha]
      cases hj : job (acc.attempted.length + 1) u <;> simp [session_step, hj]
    · rw [hc]
      cases hj : job (acc.attempted.length + 1) u <;> simp [session_step, hj] <;> omega

/-- C9: the session loop attempts every loaded URL in file order whatever the
individual outcomes (a failing or raising job does not abort the batch), and
the final counters satisfy successful + failed = N. -/
theorem session_attempts_all_urls (job : Nat → String → JobOutcome) (urls : List String) :
    (download_videos_loop job urls).attempted = urls ∧
    (download_videos_loop job urls).successful + (download_videos_loop job urls).failed =
      urls.length := by
  have h := session_foldl job urls ⟨0, 0, []⟩
  simpa [download_videos_loop] using h

/-- C1 counterexample: with quality 'high', a primary invocation that exits 0
but fails output verification (the file is created empty) ends the job as
failed after a single invocation — no stream-copy fallback is attempted, so a
failed verification does not trigger the retry the claim describes. -/
theorem fallback_skipped_on_verification_failure :
    download_video dHigh envExitZeroEmpty 0 "https://example.com/v.m3u8" "./downloads" =
      ⟨false, [["ffmpeg", "-i", "https://example.com/v.m3u8", "-bsf:a", "aac_adtstoasc", "-y",
                "-loglevel", "error", "-stats", "-vf", "scale=-2:720", "-c:v", "libx264",
                "-c:a", "aac", "./downloads/example.com_0.mp4"]]⟩ ∧
    (download_video dHigh envExitZeroEmpty 0 "https://example.com/v.m3u8" "./downloads").execs.length = 1 :=
  ⟨rfl, rfl⟩

/-- C1 (amended): when the primary invocation's execution fails (failed exit
code, or an exception during execution) and the configured quality is not
'best', download_video performs exactly one fallback invocation with the
forced stream-copy argv against the same output path, applying the same
execute-and-verify steps, and the job's outcome is the fallback's — so the
fallback's own failure makes the job fail. A zero-exit primary run whose
verification fails ends the job with no fallback. -/
theorem download_fallback_on_failed_exit (d : Downloader) (env : Env) (ts : Nat) (url dir : String)
    (hv : valid_url url = true)
    (hfail : execute_ffmpeg_command
      (env.run (build_ffmpeg_command d url (generate_output_filename d url dir ts))) = false)
    (hq : d.video_quality ≠ "best") :
    download_video d env ts url dir =
      ⟨(try_fallback_download d env url (generate_output_filename d url dir ts)).ok,
       [build_ffmpeg_command d url (generate_output_filename d url dir ts),
        fallback_command d url (generate_output_filename d url dir ts)]⟩ ∧
    fallback_command d url (generate_output_filename d url dir ts) =
      [d.ffmpeg_path, "-i", url, "-c", "copy", "-bsf:a", "aac_adtstoasc", "-y",
       generate_output_filename d url dir ts] ∧
    (try_fallback_download d env url (generate_output_filename d url dir ts)).ok =
      (execute_ffmpeg_command
          (env.run (fallback_command d url (generate_output_filename d url dir ts))) &&
       size_ok (env.view (fallback_command d url (generate_output_filename d url dir ts))
          (generate_output_filename d url dir ts))) := by
  refine ⟨?_, rfl, try_fallback_ok d env url (generate_output_filename d url dir ts)⟩
  rw [download_video_cases d env ts url dir hv]
  simp [hfail, hq]

/-- C1 witness: quality 'high', the primary invocation exits 1, the fallback
exits 0 with a non-empty output. -/
theorem download_fallback_on_failed_exit_witness :
    download_video dHigh envPrimaryFails 0 "https://example.com/v.m3u8" "./downloads" =
      ⟨(try_fallback_download dHigh envPrimaryFails "https://example.com/v.m3u8"
          (generate_output_filename dHigh "https://example.com/v.m3u8" "./downloads" 0)).ok,
       [build_ffmpeg_command dHigh "https://example.com/v.m3u8"
          (generate_output_filename dHigh "https://example.com/v.m3u8" "./downloads" 0),
        fallback_command dHigh "https://example.com/v.m3u8"
          (generate_output_filename dHigh "https://example.com/v.m3u8" "./downloads" 0)]⟩ ∧
    fallback_command dHigh "https://example.com/v.m3u8"
        (generate_output_filename dHigh "https://example.com/v.m3u8" "./downloads" 0) =
      ["ffmpeg", "-i", "https://example.com/v.m3u8", "-c", "copy", "-bsf:a", "aac_adtstoasc",
       "-y", generate_output_filename dHigh "https://example.com/v.m3u8" "./downloads" 0] ∧
    (try_fallback_download dHigh envPrimaryFails "https://example.com/v.m3u8"
        (generate_output_filename dHigh "https://example.com/v.m3u8" "./downloads" 0)).ok =
      (execute_ffmpeg_command (envPrimaryFails.run (fallback_command dHigh
          "https://example.com/v.m3u8"
          (generate_output_filename dHigh "https://example.com/v.m3u8" "./downloads" 0))) &&
       size_ok (envPrimaryFails.view (fallback_command dHigh "https://example.com/v.m3u8"
            (generate_output_filename dHigh "https://example.com/v.m3u8" "./downloads" 0))
          (generate_output_filename dHigh "https://example.com/v.m3u8" "./downloads" 0))) :=
  download_fallback_on_failed_exit dHigh envPrimaryFails 0 "https://example.com/v.m3u8"
    "./downloads" rfl rfl (by decide)

/-- C2 (code bug): no 1-hour timeout exists. download_video awaits the
subprocess through process.wait() with no timeout argument, so a primary
invocation that runs for 7200 seconds of wall-clock time and exits 0 with a
non-empty output file is never aborted — the job succeeds — and the result of
an execution is independent of its wall-clock runtime. The TimeoutExpired
handler at downloader.py line 71 (message "1 hour limit") is unreachable. -/
theorem download_no_timeout_enforced :
    download_video dBest envTwoHours 0 "https://example.com/v.m3u8" "./downloads" =
      ⟨true, [["ffmpeg", "-i", "https://example.com/v.m3u8", "-bsf:a", "aac_adtstoasc", "-y",
               "-loglevel", "error", "-stats", "-c", "copy",
               "./downloads/example.com_0.mp4"]]⟩ ∧
    ∀ (code : Int) (r r' : Nat),
      execute_ffmpeg_command (ExecOutcome.exited code r) =
        execute_ffmpeg_command (ExecOutcome.exited code r') :=
  ⟨rfl, fun _ _ _ => rfl⟩

/-- C3: a job reports success only if, after its last invocation, the derived
output path is observed to exist with size greater than zero; in particular a
zero-exit subprocess that leaves a missing or empty file yields a failed
job. -/
theorem download_success_requires_nonempty_output (d : Downloader) (env : Env) (ts : Nat)
    (url dir : String) (hv : valid_url url = true)
    (hok : (download_video d env ts url dir).ok = true) :
    (download_video d env ts url dir).execs ≠ [] ∧
    size_ok (env.view ((download_video d env ts url dir).execs.getLastD [])
      (generate_output_filename d url dir ts)) = true := by
  rw [download_video_cases d env ts url dir hv] at hok ⊢
  cases hx : execute_ffmpeg_command
      (env.run (build_ffmpeg_command d url (generate_output_filename d url dir ts)))
  · simp only [hx, Bool.false_eq_true, if_false] at hok ⊢
    by_cases hq : d.video_quality = "best"
    · simp [hq] at hok
    · simp only [if_neg hq] at hok ⊢
      rw [try_fallback_ok] at hok
      simp only [Bool.and_eq_true] at hok
      simp [hok.2]
  · simp only [hx, if_true] at hok ⊢
    simp [hok]

/-- C3 witness: a zero-exit primary invocation whose output verifies as 5
bytes yields a successful job whose last (only) invocation verified. -/
theorem download_success_requires_nonempty_output_witness :
    (download_video dBest envAllGood 0 "https://example.com/v.m3u8" "./downloads").execs ≠ [] ∧
    size_ok (envAllGood.view
      ((download_video dBest envAllGood 0 "https://example.com/v.m3u8" "./downloads").execs.getLastD [])
      (generate_output_filename dBest "https://example.com/v.m3u8" "./downloads" 0)) = true :=
  download_success_requires_nonempty_output dBest envAllGood 0 "https://example.com/v.m3u8"
    "./downloads" rfl rfl

/-- C10 counterexample: a filename-derivation error does not yield False. For
the scheme-valid URL "https://[::1/v.m3u8" the urlparse call raises ValueError
(unmatched bracket in the authority); _generate_output_filename recovers with
the generic video_0.mp4 name and the job proceeds and returns True. -/
theorem derivation_error_does_not_fail_job :
    urlparse_raises "https://[::1/v.m3u8" = true ∧
    download_video dBest envAllGood 0 "https://[::1/v.m3u8" "./downloads" =
      ⟨true, [["ffmpeg", "-i", "https://[::1/v.m3u8", "-bsf:a", "aac_adtstoasc", "-y",
               "-loglevel", "error", "-stats", "-c", "copy", "./downloads/video_0.mp4"]]⟩ :=
  ⟨rfl, rfl⟩

/-- C10 (amended): download_video is total at its boundary — every propagating
exception of the body is caught and becomes the return value False; an invalid
URL returns False with no invocation; a missing executable or an execution
error on every attempted invocation returns False; and a filename-derivation
error is recovered by substituting the generic video_{timestamp}.{format} name
rather than failing the job. -/
theorem download_total_boundary (d : Downloader) (env : Env) (ts : Nat) (url dir : String) :
    (valid_url url = false → download_video d env ts url dir = ⟨false, []⟩) ∧
    (∀ e es, valid_url url = true →
      download_video_body d env ts url dir = ⟨Except.error e, es⟩ →
      download_video d env ts url dir = ⟨false, es⟩) ∧
    (env.run (build_ffmpeg_command d url (generate_output_filename d url dir ts)) =
        ExecOutcome.fileNotFound →
     env.run (fallback_command d url (generate_output_filename d url dir ts)) =
        ExecOutcome.fileNotFound →
     (download_video d env ts url dir).ok = false) ∧
    (env.run (build_ffmpeg_command d url (generate_output_filename d url dir ts)) =
        ExecOutcome.raised →
     env.run (fallback_command d url (generate_output_filename d url dir ts)) =
        ExecOutcome.raised →
     (download_video d env ts url dir).ok = false) ∧
    (urlparse_raises url = true →
      generate_output_filename d url dir ts =
        joinPath dir ("video_" ++ natToString ts ++ "." ++ d.output_format)) := by
  refine ⟨?_, ?_, ?_, ?_, ?_⟩
  · intro h
    simp [download_video, h]
  · intro e es hv hbody
    rw [download_video_eq_body d env ts url dir hv, hbody]
  · intro h1 h2
    by_cases hv : valid_url url = true
    · rw [download_video_cases d env ts url dir hv]
      have hx : execute_ffmpeg_command
          (env.run (build_ffmpeg_command d url (generate_output_filename d url dir ts))) = false := by
        rw [h1]; rfl
      by_cases hq : d.video_quality = "best"
      · simp [hx, hq]
      · simp only [hx, Bool.false_eq_true, if_false, if_neg hq]
        simp [try_fallback_ok, h2, execute_ffmpeg_command]
    · simp [download_video, hv]
  · intro h1 h2
    by_cases hv : valid_url url = true
    · rw [download_video_cases d env ts url dir hv]
      have hx : execute_ffmpeg_command
          (env.run (build_ffmpeg_command d url (generate_output_filename d url dir ts))) = false := by
        rw [h1]; rfl
      by_cases hq : d.video_quality = "best"
      · simp [hx, hq]
      · simp only [hx, Bool.false_eq_true, if_false, if_neg hq]
        simp [try_fallback_ok, h2, execute_ffmpeg_command]
    · simp [download_video, hv]
  · intro h
    simp [generate_output_filename, h]

/-- C10 witness: an OSError raised while verifying the output file propagates
out of the body and is caught, making the job return False rather than
raising. -/
theorem download_total_boundary_witness :
    download_video dBest envVerifyRaises 0 "https://example.com/v.m3u8" "./downloads" =
      ⟨false, [["ffmpeg", "-i", "https://example.com/v.m3u8", "-bsf:a", "aac_adtstoasc", "-y",
                "-loglevel", "error", "-stats", "-c", "copy",
                "./downloads/example.com_0.mp4"]]⟩ :=
  (download_total_boundary dBest envVerifyRaises 0 "https://example.com/v.m3u8" "./downloads").2.1
    PyExc.osError
    [["ffmpeg", "-i", "https://example.com/v.m3u8", "-bsf:a", "aac_adtstoasc", "-y",
      "-loglevel", "error", "-stats", "-c", "copy", "./downloads/example.com_0.mp4"]]
    rfl rfl
